import Mathlib

/-!
Verification of the mcp-typescript-simple-canary repository's
interface/type stability-detection harness and its auxiliary modules
against the repository's natural-language specification.

The development shallowly embeds:
* the runtime probe engine and static shape verifier described by the
  specification (the engine itself is vitest-driven machinery not present
  as repository source; those parts are modelled from the spec and are
  marked as such in their doc comments);
* the contract catalog encoded by `test/interface-stability.test.ts`;
* the `current-timestamp` tool handler (`src/tools/current-timestamp.ts`);
* `createCanaryTools` (`src/tools/index.ts`);
* `getCurrentEnvironment` and `TEST_ENVIRONMENTS` (`test/system/utils.ts`).
-/

/-! ### String containment helpers -/

/-- Does the first character list occur at the start of the second? -/
def startsWithCh : List Char → List Char → Bool
  | [], _ => true
  | _ :: _, [] => false
  | a :: as, b :: bs => a == b && startsWithCh as bs

/-- Does the first character list occur contiguously anywhere in the second? -/
def containsCh (p : List Char) : List Char → Bool
  | [] => p.isEmpty
  | c :: t => startsWithCh p (c :: t) || containsCh p t

/-- Substring test on strings, mirroring the semantics of JavaScript's
`String.prototype.includes` (used implicitly by vitest's `toThrow(string)`). -/
def substrOf (pat s : String) : Bool :=
  containsCh pat.data s.data

theorem startsWithCh_append (p s t : List Char) (h : startsWithCh p s = true) :
    startsWithCh p (s ++ t) = true := by
  induction p generalizing s with
  | nil => simp [startsWithCh]
  | cons a as ih =>
    cases s with
    | nil => simp [startsWithCh] at h
    | cons b bs =>
      simp only [startsWithCh, Bool.and_eq_true] at h
      simp only [List.cons_append, startsWithCh, Bool.and_eq_true]
      exact ⟨h.1, ih bs h.2⟩

theorem containsCh_append (p s t : List Char) (h : containsCh p s = true) :
    containsCh p (s ++ t) = true := by
  induction s with
  | nil =>
    simp only [containsCh, List.isEmpty_iff] at h
    subst h
    cases t with
    | nil => simp [containsCh]
    | cons c cs => simp [containsCh, startsWithCh]
  | cons c cs ih =>
    simp only [containsCh, Bool.or_eq_true] at h
    simp only [List.cons_append, containsCh, Bool.or_eq_true]
    cases h with
    | inl h => exact Or.inl (startsWithCh_append _ _ _ h)
    | inr h => exact Or.inr (ih h)

theorem data_append (s t : String) : (s ++ t).data = s.data ++ t.data := rfl

/-- Containment is preserved when extending the searched string on the right. -/
theorem substrOf_append (pat s t : String) (h : substrOf pat s = true) :
    substrOf pat (s ++ t) = true := by
  unfold substrOf at *
  rw [data_append]
  exact containsCh_append _ _ _ h

theorem startsWithCh_self (p : List Char) : startsWithCh p p = true := by
  induction p with
  | nil => rfl
  | cons a as ih => simp [startsWithCh, ih]

/-- A string occurs in itself extended on the right. -/
theorem substrOf_self_append (p t : String) : substrOf p (p ++ t) = true := by
  apply substrOf_append
  unfold substrOf
  cases h : p.data with
  | nil => simp [containsCh, h]
  | cons c cs =>
    simp only [containsCh, h, Bool.or_eq_true]
    exact Or.inl (h ▸ startsWithCh_self p.data)

/-! ### C1: the LLM manager `initialize()` probe

The contract catalog entry lives in `test/interface-stability.test.ts`
(lines 226-233): the probe awaits `manager.initialize()` and passes exactly
when the promise rejects with an error whose message contains the string
given to `toThrow`. -/

/-- Settled outcome of invoking the (asynchronous) `initialize()` method. -/
inductive InitOutcome
  | resolves
  | rejects (msg : String)

/-- The substring that the catalog entry in
`test/interface-stability.test.ts` line 232 passes to `rejects.toThrow`. -/
def llmInitializeExpected : String := "No LLM clients could be initialized"

/-- The probe for the LLM manager contract entry: vitest's
`expect(p).rejects.toThrow(str)` succeeds exactly when the promise rejects
and the rejection's message contains `str`. -/
def llmInitializeProbe : InitOutcome → Bool
  | .resolves => false
  | .rejects msg => substrOf llmInitializeExpected msg

/-- Modelled from the spec: the `LLMManager` implementation is an external
framework package absent from this repository. Per the spec's end-to-end
scenario 2 and the comment at `test/interface-stability.test.ts` line 230,
`initialize()` invoked with no API keys configured rejects, and the actual
rejection message is the one the catalog entry records. -/
def llmInitializeNoCredentials : InitOutcome :=
  .rejects "No LLM clients could be initialized"

/-- C1 (counterexample): the claim's substring "could not be initialized"
does not characterise the probe. The probe passes at the concrete rejection
message "No LLM clients could be initialized" (the message the installed
manager actually produces and the test expects), yet that message does not
contain "could not be initialized", so "the probe passes exactly when that
rejection with that message occurs" is false at this input. -/
theorem llmInitializeProbe_claim_false :
    llmInitializeProbe (.rejects "No LLM clients could be initialized") = true ∧
    substrOf "could not be initialized" "No LLM clients could be initialized" = false := by
  constructor <;> decide

/-- C1 (amended): with no credentials configured, `initialize()` rejects and
the probe passes; in general the probe passes exactly when the invocation
rejects with a message containing "No LLM clients could be initialized". -/
theorem llmInitializeProbe_spec :
    llmInitializeProbe llmInitializeNoCredentials = true ∧
    (∀ msg, llmInitializeProbe (.rejects msg) =
      substrOf "No LLM clients could be initialized" msg) ∧
    llmInitializeProbe .resolves = false := by
  refine ⟨by decide, fun msg => rfl, rfl⟩

/-! ### The runtime probe engine

Modelled from the spec: the Runtime Probe Engine (spec section 4.2) is the
vitest machinery driving `test/interface-stability.test.ts`; it is not
itself source code of this repository. Its algorithm is embedded below
following the spec's per-entry steps: resolve the symbol, check shape,
evaluate every behavior assertion sequentially without short-circuiting,
and aggregate into one `ProbeResult`. -/

/-- A runtime value exchanged with the probed dependency. -/
inductive Value
  | str (s : String)
  | bool (b : Bool)
  | num (n : Int)
  | list (elems : List Value)
  | obj (fields : List (String × Value))

/-- Expected symbol categories (spec section 3, `ContractEntry.kind`). -/
inductive SymbolKind
  | function
  | classKind
  | methodKind
  | typeKind
  | constant
deriving DecidableEq

/-- The settled outcome actually observed when invoking a symbol. -/
inductive ActualOutcome
  | returned (v : Value)
  | threw (msg : String)
  | resolved (v : Value)
  | rejected (msg : String)

/-- Expected outcome of one behavior assertion (spec section 3): one of
returns-value-matching-predicate, throws-matching-predicate, resolves,
rejects — the settling outcomes carry the predicate judging the settled
value or the rejection message. -/
inductive ExpectedBehavior
  | returnsMatching (p : Value → Bool)
  | throwsMatching (p : String → Bool)
  | resolvesWith (p : Value → Bool)
  | rejectsWith (p : String → Bool)

/-- Compare an actual outcome against the expected outcome kind. A caught
exception is a legitimate assertion outcome, not an engine failure. -/
def behaviorMatches : ExpectedBehavior → ActualOutcome → Bool
  | .returnsMatching p, .returned v => p v
  | .throwsMatching p, .threw m => p m
  | .resolvesWith p, .resolved v => p v
  | .rejectsWith p, .rejected m => p m
  | _, _ => false

/-- One (input, expected-outcome) behavior assertion of a contract entry. -/
structure BehaviorAssertion where
  description : String
  input : Value
  expected : ExpectedBehavior

/-- One verifiable unit of the dependency's public surface. -/
structure ContractEntry where
  symbolPath : String
  kind : SymbolKind
  members : List String
  behaviorAssertions : List BehaviorAssertion

/-- A symbol as resolved from the installed dependency: its runtime kind,
its member surface, and an invocation function producing settled outcomes. -/
structure DepSymbol where
  kind : SymbolKind
  members : List String
  invoke : Value → ActualOutcome

/-- The installed dependency: a black box resolving symbol paths. -/
structure Dependency where
  version : String
  resolve : String → Option DepSymbol

/-- Status of one probe result. -/
inductive Status
  | pass
  | fail
  | skip (reason : String)
deriving DecidableEq

/-- Outcome of executing one contract entry against the dependency. -/
structure ProbeResult where
  entryPath : String
  status : Status
  failures : List String

/-- Shape-check diagnostics for a resolved symbol: wrong kind, then one
diagnostic per expected member missing from the symbol's surface. -/
def shapeDiagnostics (e : ContractEntry) (sym : DepSymbol) : List String :=
  (if sym.kind = e.kind then []
   else ["shape mismatch: expected kind differs from actual kind"]) ++
  e.members.filterMap fun m =>
    if sym.members.contains m then none
    else some ("shape mismatch: missing member " ++ m)

/-- Human-readable name of the expected outcome kind. -/
def expectedKindName : ExpectedBehavior → String
  | .returnsMatching _ => "returns-value-matching-predicate"
  | .throwsMatching _ => "throws-matching-predicate"
  | .resolvesWith _ => "resolves"
  | .rejectsWith _ => "rejects"

/-- Human-readable name of the actual outcome kind. -/
def actualKindName : ActualOutcome → String
  | .returned _ => "returned"
  | .threw _ => "threw"
  | .resolved _ => "resolved"
  | .rejected _ => "rejected"

/-- Diagnostic string for one violated assertion: which assertion, expected
versus actual kind, and the run's timestamp. -/
def diagnosticFor (t : String) (a : BehaviorAssertion) (actual : ActualOutcome) : String :=
  "assertion " ++ a.description ++ ": expected " ++ expectedKindName a.expected ++
    ", got " ++ actualKindName actual ++ " [" ++ t ++ "]"

/-- The assertions of an entry violated by the resolved symbol. Every
assertion is evaluated — evaluation does not stop at the first failure. -/
def assertionViolations (sym : DepSymbol) (e : ContractEntry) : List BehaviorAssertion :=
  e.behaviorAssertions.filter fun a => ! behaviorMatches a.expected (sym.invoke a.input)

/-- One diagnostic per violated assertion, in assertion order. -/
def behaviorDiagnostics (t : String) (sym : DepSymbol) (e : ContractEntry) : List String :=
  (assertionViolations sym e).map fun a => diagnosticFor t a (sym.invoke a.input)

/-- Probe one contract entry (spec section 4.2): an unresolved symbol is a
hard fail for that entry with the single failure "symbol not exported";
otherwise shape diagnostics and behavior diagnostics are collected and the
entry passes iff zero diagnostics were produced. -/
def probeEntry (t : String) (dep : Dependency) (e : ContractEntry) : ProbeResult :=
  match dep.resolve e.symbolPath with
  | none => { entryPath := e.symbolPath, status := .fail, failures := ["symbol not exported"] }
  | some sym =>
    let failures := shapeDiagnostics e sym ++ behaviorDiagnostics t sym e
    { entryPath := e.symbolPath
      status := if failures.isEmpty then .pass else .fail
      failures := failures }

/-- Aggregated outcome of one verification run. -/
structure Report where
  generatedAt : String
  dependencyVersion : String
  results : List ProbeResult

/-- Run every catalog entry through the probe engine; entries are evaluated
independently of each other. -/
def runCatalog (t : String) (dep : Dependency) (catalog : List ContractEntry) : Report :=
  { generatedAt := t
    dependencyVersion := dep.version
    results := catalog.map (probeEntry t dep) }

/-- Delete one symbol from the dependency's exported surface, leaving every
other export untouched. -/
def removeSymbol (dep : Dependency) (path : String) : Dependency :=
  { dep with resolve := fun p => if p = path then none else dep.resolve p }

/-! ### Probe engine theorems (C2, C5, C7) -/

/-- Value predicate: is the value the boolean true? -/
def isTrueValue : Value → Bool
  | .bool true => true
  | _ => false

/-- A small concrete dependency symbol used to instantiate the engine
theorems on closed inputs. -/
def symW : DepSymbol :=
  { kind := .function, members := [], invoke := fun _ => .returned (.bool true) }

/-- A concrete dependency exporting the symbols "w" and "gone". -/
def depW : Dependency :=
  { version := "1.0.0"
    resolve := fun p =>
      if p = "w" then some symW else if p = "gone" then some symW else none }

/-- A concrete contract entry for symbol "w" with one satisfied and one
violated behavior assertion. -/
def entryW : ContractEntry :=
  { symbolPath := "w", kind := .function, members := []
    behaviorAssertions :=
      [⟨"a1", .bool true, .returnsMatching isTrueValue⟩,
       ⟨"a2", .bool true, .rejectsWith fun _ => true⟩] }

/-- A concrete contract entry for symbol "gone". -/
def entryGone : ContractEntry :=
  { symbolPath := "gone", kind := .function, members := [], behaviorAssertions := [] }

/-- C2: deleting one symbol from the dependency makes every catalog entry
referencing it fail with the single diagnostic "symbol not exported"
(which contains "not exported"), leaves the probe result of every other
entry unchanged, and the run still produces one result per catalog entry. -/
theorem probe_missing_symbol_isolated (t : String) (dep : Dependency) (path : String)
    (cat : List ContractEntry) :
    (∀ e, e ∈ cat → e.symbolPath = path →
      (probeEntry t (removeSymbol dep path) e).status = .fail ∧
      (probeEntry t (removeSymbol dep path) e).failures = ["symbol not exported"] ∧
      substrOf "not exported" "symbol not exported" = true) ∧
    (∀ e, e ∈ cat → e.symbolPath ≠ path →
      probeEntry t (removeSymbol dep path) e = probeEntry t dep e) ∧
    (runCatalog t (removeSymbol dep path) cat).results.length = cat.length := by
  refine ⟨?_, ?_, by simp [runCatalog]⟩
  · intro e _ he
    refine ⟨?_, ?_, by decide⟩ <;> simp [probeEntry, removeSymbol, he]
  · intro e _ hne
    simp [probeEntry, removeSymbol, hne]

theorem probe_missing_symbol_isolated_witness :
    ((probeEntry "T" (removeSymbol depW "gone") entryGone).status = .fail ∧
     (probeEntry "T" (removeSymbol depW "gone") entryGone).failures = ["symbol not exported"] ∧
     substrOf "not exported" "symbol not exported" = true) ∧
    probeEntry "T" (removeSymbol depW "gone") entryW = probeEntry "T" depW entryW ∧
    (runCatalog "T" (removeSymbol depW "gone") [entryGone, entryW]).results.length =
      [entryGone, entryW].length := by
  have H := probe_missing_symbol_isolated "T" depW "gone" [entryGone, entryW]
  exact ⟨H.1 entryGone (List.mem_cons_self _ _) rfl,
         H.2.1 entryW (List.mem_cons_of_mem _ (List.mem_cons_self _ _)) (by decide),
         H.2.2⟩

/-- C5: for a resolved symbol, the per-entry result passes iff zero
diagnostics were produced, fails otherwise, its failure list is exactly the
shape diagnostics followed by the behavior diagnostics, and the behavior
diagnostics keep one entry per violated assertion (no short-circuiting). -/
theorem probeResult_aggregation (t : String) (dep : Dependency) (e : ContractEntry)
    (sym : DepSymbol) (h : dep.resolve e.symbolPath = some sym) :
    ((probeEntry t dep e).status = .pass ↔ (probeEntry t dep e).failures = []) ∧
    ((probeEntry t dep e).failures ≠ [] → (probeEntry t dep e).status = .fail) ∧
    (probeEntry t dep e).failures = shapeDiagnostics e sym ++ behaviorDiagnostics t sym e ∧
    (behaviorDiagnostics t sym e).length = (assertionViolations sym e).length := by
  have hfail : (probeEntry t dep e).failures =
      shapeDiagnostics e sym ++ behaviorDiagnostics t sym e := by
    simp [probeEntry, h]
  have hstat : (probeEntry t dep e).status =
      if (shapeDiagnostics e sym ++ behaviorDiagnostics t sym e).isEmpty then .pass
      else .fail := by
    simp [probeEntry, h]
  refine ⟨?_, ?_, hfail, by simp [behaviorDiagnostics]⟩ <;>
    rw [hstat, hfail] <;>
    by_cases hc : (shapeDiagnostics e sym ++ behaviorDiagnostics t sym e).isEmpty = true
  · simp [hc, List.isEmpty_iff.mp hc]
  · have hne : shapeDiagnostics e sym ++ behaviorDiagnostics t sym e ≠ [] := by
      intro hnil
      rw [hnil] at hc
      exact hc rfl
    simp [hc, hne]
  · intro hne
    exact absurd (List.isEmpty_iff.mp hc) hne
  · simp [hc]

theorem probeResult_aggregation_witness :
    ((probeEntry "T" depW entryW).status = .pass ↔ (probeEntry "T" depW entryW).failures = []) ∧
    ((probeEntry "T" depW entryW).failures ≠ [] → (probeEntry "T" depW entryW).status = .fail) ∧
    (probeEntry "T" depW entryW).failures =
      shapeDiagnostics entryW symW ++ behaviorDiagnostics "T" symW entryW ∧
    (behaviorDiagnostics "T" symW entryW).length = (assertionViolations symW entryW).length :=
  probeResult_aggregation "T" depW entryW symW rfl

theorem isEmpty_append_map {α β : Type} (s : List α) (f g : β → α) (l : List β) :
    (s ++ l.map f).isEmpty = (s ++ l.map g).isEmpty := by
  cases s <;> cases l <;> rfl

theorem probeEntry_status_time_invariant (t₁ t₂ : String) (dep : Dependency)
    (e : ContractEntry) :
    (probeEntry t₁ dep e).status = (probeEntry t₂ dep e).status := by
  cases hr : dep.resolve e.symbolPath with
  | none => simp [probeEntry, hr]
  | some sym =>
    simp only [probeEntry, hr, behaviorDiagnostics]
    have hEq := isEmpty_append_map (shapeDiagnostics e sym)
      (fun a => diagnosticFor t₁ a (sym.invoke a.input))
      (fun a => diagnosticFor t₂ a (sym.invoke a.input))
      (assertionViolations sym e)
    simp only [hEq]

/-- C7: two runs of the full catalog against the same installed dependency
produce identical per-entry statuses, even when the runs happen at
different timestamps (which may appear in diagnostic text). -/
theorem report_statuses_idempotent (t₁ t₂ : String) (dep : Dependency)
    (cat : List ContractEntry) :
    (runCatalog t₁ dep cat).results.map ProbeResult.status =
    (runCatalog t₂ dep cat).results.map ProbeResult.status := by
  simp only [runCatalog, List.map_map]
  induction cat with
  | nil => rfl
  | cons e es ih =>
    simp only [List.map_cons, Function.comp_apply]
    rw [probeEntry_status_time_invariant t₁ t₂ dep e]
    exact congrArg _ ih

/-! ### The static shape verifier (C4, C6)

Modelled from the spec: the Static Shape Verifier (spec section 4.3) is the
TypeScript compiler run over the type-fixture file
`test/type-compatibility.test.ts` (mirrored here from its design in the
spec); the compiler itself is not source code of this repository. Each
`TypeCheckUnit` is tagged with its expected compiler verdict, and the
type-checker invocation is treated as a pure function from unit to
accept/reject. -/

/-- Expected compiler verdict of a type-check unit. -/
inductive ExpectedCompileOutcome
  | mustCompile
  | mustFailToCompile
deriving DecidableEq

/-- Actual compiler verdict for a unit's fragment. -/
inductive CompileOutcome
  | compiles
  | failsToCompile
deriving DecidableEq

/-- One compile-time-only assertion. -/
structure TypeCheckUnit where
  id : String
  expectedOutcome : ExpectedCompileOutcome
  rationale : String

/-- Status of one type-check unit in the static-check run. -/
inductive UnitStatus
  | pass
  | fail (diagnostic : String)
  | skip (reason : String)
deriving DecidableEq

/-- Is a unit status a pass? -/
def isPassStatus : UnitStatus → Bool
  | .pass => true
  | _ => false

/-- Does the actual compile outcome match the expected one? Both
directions are tracked symmetrically. -/
def outcomeMatches : ExpectedCompileOutcome → CompileOutcome → Bool
  | .mustCompile, .compiles => true
  | .mustFailToCompile, .failsToCompile => true
  | _, _ => false

/-- Diagnostic reported when a unit's actual compile outcome diverges from
its expected outcome. -/
def divergenceDiagnostic (u : TypeCheckUnit) : String :=
  "TypeCheckDivergence: unit " ++ u.id ++ " actual compile outcome diverges from expected outcome"

/-- Verify one type-check unit. When the dependency's type declarations
cannot be found at all, the unit is reported as a skip with reason
"no type declarations available"; otherwise the unit passes iff the
compiler's verdict matches the expected outcome. -/
def verifyUnit (decls : Option (TypeCheckUnit → CompileOutcome)) (u : TypeCheckUnit) :
    UnitStatus :=
  match decls with
  | none => .skip "no type declarations available"
  | some check =>
    if outcomeMatches u.expectedOutcome (check u) then .pass
    else .fail (divergenceDiagnostic u)

/-- Run the static checker over every unit; a divergence in one unit does
not abort the remaining units. -/
def runStaticCheck (decls : Option (TypeCheckUnit → CompileOutcome))
    (units : List TypeCheckUnit) : List (String × UnitStatus) :=
  units.map fun u => (u.id, verifyUnit decls u)

/-- C4: when the dependency's type declarations cannot be found at all,
every unit in the static-check run is reported as a skip with reason
"no type declarations available", and no unit is reported as a pass. -/
theorem staticCheck_skips_without_declarations (units : List TypeCheckUnit) :
    runStaticCheck none units =
      units.map (fun u => (u.id, UnitStatus.skip "no type declarations available")) ∧
    (runStaticCheck none units).all (fun r => ! isPassStatus r.2) = true := by
  constructor
  · simp [runStaticCheck, verifyUnit]
  · induction units with
    | nil => rfl
    | cons u us ih => simp [runStaticCheck, verifyUnit, isPassStatus]

/-- C6: the verifier tracks both directions symmetrically. A
must-fail-to-compile unit whose fragment now compiles is reported as a
failure carrying a TypeCheckDivergence diagnostic, while a must-compile
unit whose fragment compiles is a pass. -/
theorem verifier_tracks_both_directions (check : TypeCheckUnit → CompileOutcome)
    (u : TypeCheckUnit) :
    (u.expectedOutcome = .mustFailToCompile → check u = .compiles →
      verifyUnit (some check) u = .fail (divergenceDiagnostic u) ∧
      substrOf "TypeCheckDivergence" (divergenceDiagnostic u) = true) ∧
    (u.expectedOutcome = .mustCompile → check u = .compiles →
      verifyUnit (some check) u = .pass) := by
  constructor
  · intro he hc
    refine ⟨by simp [verifyUnit, he, hc, outcomeMatches], ?_⟩
    have h1 : substrOf "TypeCheckDivergence" "TypeCheckDivergence: unit " = true := by decide
    have h2 := substrOf_append "TypeCheckDivergence" "TypeCheckDivergence: unit " u.id h1
    exact substrOf_append _ _ _ h2
  · intro he hc
    simp [verifyUnit, he, hc, outcomeMatches]

theorem verifier_tracks_both_directions_witness :
    verifyUnit (some fun _ => .compiles) ⟨"u0", .mustFailToCompile, "regression fixture"⟩ =
      .fail (divergenceDiagnostic ⟨"u0", .mustFailToCompile, "regression fixture"⟩) ∧
    substrOf "TypeCheckDivergence"
      (divergenceDiagnostic ⟨"u0", .mustFailToCompile, "regression fixture"⟩) = true :=
  (verifier_tracks_both_directions (fun _ => .compiles)
    ⟨"u0", .mustFailToCompile, "regression fixture"⟩).1 rfl rfl

/-! ### The current-timestamp tool handler (C8)

Embedded from `src/tools/current-timestamp.ts`. The ambient JavaScript
facilities the handler consults — the current time, `Date` string
renderings, and `Intl.DateTimeFormat` (both the constructor's timezone
validation and the formatter output, which may raise) — are collected in
`TsEnv`; the handler itself is translated line by line. JavaScript
truthiness is preserved: `if (timezone)` is false for the empty string. -/

/-- Output format enum of the tool's input schema (default `unix`). -/
inductive TFormat
  | unix
  | iso
  | human
deriving DecidableEq

/-- String rendering of the format enum value. -/
def formatString : TFormat → String
  | .unix => "unix"
  | .iso => "iso"
  | .human => "human"

/-- The handler's parsed input: optional timezone, format with the Zod
default already applied. -/
structure TsInput where
  timezone : Option String
  format : TFormat

/-- One content item of a tool result. -/
structure ToolContent where
  type : String
  text : String

/-- A tool invocation result. -/
structure ToolResult where
  content : List ToolContent
  isError : Bool := false

/-- The ambient environment read by the handler: the current time in
milliseconds, the timezone-free `Date` renderings, the
`Intl.DateTimeFormat` timezone validation, and the two timezone-aware
formatter invocations, which may raise an internal error. -/
structure TsEnv where
  nowMs : Nat
  isoString : String
  humanString : String
  isValidTimezone : String → Bool
  formatIsoTz : String → Except String String
  formatHumanTz : String → Except String String

/-- The invalid-timezone message of `src/tools/current-timestamp.ts` line 47. -/
def invalidTimezoneText (tz : String) : String :=
  "Invalid timezone: " ++ tz ++
    ". Use IANA timezone identifiers (e.g., America/New_York, Europe/London, Asia/Tokyo)"

/-- The response message of `src/tools/current-timestamp.ts` lines 100-107. -/
def tsSuccessText (format : TFormat) (displayTimezone : Option String)
    (result : String) : String :=
  let timezoneInfo := match displayTimezone with
    | some d => " (" ++ d ++ ")"
    | none => ""
  let formatInfo := if format = TFormat.unix then "" else " in " ++ formatString format ++ " format"
  "Current timestamp" ++ formatInfo ++ timezoneInfo ++ ": " ++ result

/-- The timezone-free path of the handler: `displayTimezone` stays unset
and the formatting operations cannot raise. -/
def currentTimestampNoTz (env : TsEnv) (format : TFormat) : Except String ToolResult :=
  let result := match format with
    | .unix => toString (env.nowMs / 1000)
    | .iso => env.isoString
    | .human => env.humanString
  .ok { content := [⟨"text", tsSuccessText format none result⟩], isError := false }

/-- The body of the handler's outer `try` block. A thrown internal error is
an `Except.error`; the early `return` for an invalid timezone is an
`Except.ok` carrying the error-flagged result. A `some ""` timezone is
falsy in JavaScript, so it skips both timezone branches. -/
def currentTimestampBody (env : TsEnv) (input : TsInput) : Except String ToolResult :=
  match input.timezone with
  | some tz =>
    if tz = "" then currentTimestampNoTz env input.format
    else if env.isValidTimezone tz then
      match (match input.format with
             | .unix => Except.ok (toString (env.nowMs / 1000))
             | .iso => env.formatIsoTz tz
             | .human => env.formatHumanTz tz) with
      | .error msg => .error msg
      | .ok result =>
        .ok { content := [⟨"text", tsSuccessText input.format (some tz) result⟩]
              isError := false }
    else
      .ok { content := [⟨"text", invalidTimezoneText tz⟩], isError := true }
  | none => currentTimestampNoTz env input.format

/-- The complete handler: the outer `catch` turns any internal error into
an error-flagged result rather than propagating an exception. -/
def currentTimestampHandler (env : TsEnv) (input : TsInput) : ToolResult :=
  match currentTimestampBody env input with
  | .ok r => r
  | .error msg =>
    { content := [⟨"text", "Error getting timestamp: " ++ msg⟩], isError := true }

theorem currentTimestampNoTz_spec (env : TsEnv) (format : TFormat) :
    ∃ txt, currentTimestampNoTz env format =
      .ok { content := [⟨"text", txt⟩], isError := false } :=
  ⟨_, rfl⟩

theorem currentTimestampBody_ok (env : TsEnv) (input : TsInput) (r : ToolResult)
    (h : currentTimestampBody env input = .ok r) :
    ∃ c, r.content = [⟨"text", c⟩] := by
  unfold currentTimestampBody at h
  split at h
  case _ tz _ =>
    by_cases h0 : tz = ""
    · rw [if_pos h0] at h
      obtain ⟨txt, hn⟩ := currentTimestampNoTz_spec env input.format
      rw [hn] at h
      cases h
      exact ⟨txt, rfl⟩
    · rw [if_neg h0] at h
      by_cases hv : env.isValidTimezone tz = true
      · rw [if_pos hv] at h
        split at h
        · exact absurd h (by simp)
        · cases h
          exact ⟨_, rfl⟩
      · rw [if_neg hv] at h
        cases h
        exact ⟨_, rfl⟩
  case _ =>
    obtain ⟨txt, hn⟩ := currentTimestampNoTz_spec env input.format
    rw [hn] at h
    cases h
    exact ⟨txt, rfl⟩

/-- C8 (amended): the handler is total and always returns a result with a
single content item; for every input whose timezone string is non-empty and
not a valid IANA timezone identifier the result carries `isError = true`
and its text contains "Invalid timezone: " followed by the given timezone;
and any internal error of the body is returned as an error-flagged result
with text "Error getting timestamp: ..." rather than propagated.
(An empty timezone string is falsy in JavaScript and is treated as if no
timezone had been given.) -/
theorem currentTimestampHandler_spec (env : TsEnv) (input : TsInput) :
    (currentTimestampHandler env input).content ≠ [] ∧
    (∀ tz, input.timezone = some tz → tz ≠ "" → env.isValidTimezone tz = false →
      (currentTimestampHandler env input).isError = true ∧
      substrOf ("Invalid timezone: " ++ tz)
        (((currentTimestampHandler env input).content.headD ⟨"", ""⟩).text) = true) ∧
    (∀ msg, currentTimestampBody env input = .error msg →
      currentTimestampHandler env input =
        { content := [⟨"text", "Error getting timestamp: " ++ msg⟩], isError := true }) := by
  refine ⟨?_, ?_, ?_⟩
  · cases hb : currentTimestampBody env input with
    | error msg => simp [currentTimestampHandler, hb]
    | ok r =>
      obtain ⟨c, hc⟩ := currentTimestampBody_ok env input r hb
      simp [currentTimestampHandler, hb, hc]
  · intro tz htz hne hval
    obtain ⟨otz, fmt⟩ := input
    simp only at htz
    subst htz
    have hbody : currentTimestampBody env ⟨some tz, fmt⟩ =
        .ok { content := [⟨"text", invalidTimezoneText tz⟩], isError := true } := by
      simp [currentTimestampBody, hne, hval]
    refine ⟨by simp [currentTimestampHandler, hbody], ?_⟩
    simp only [currentTimestampHandler, hbody, List.headD_cons]
    exact substrOf_self_append ("Invalid timezone: " ++ tz) _
  · intro msg hmsg
    simp [currentTimestampHandler, hmsg]

/-- A concrete environment whose timezone validator rejects everything. -/
def tsEnvW : TsEnv :=
  { nowMs := 1700000000000
    isoString := "2023-11-14T22:13:20.000Z"
    humanString := "Tue Nov 14 2023 22:13:20 GMT+0000 (Coordinated Universal Time)"
    isValidTimezone := fun _ => false
    formatIsoTz := fun _ => .error "formatter failure"
    formatHumanTz := fun _ => .error "formatter failure" }

theorem currentTimestampHandler_spec_witness :
    (currentTimestampHandler tsEnvW ⟨some "Bad/Zone", .unix⟩).isError = true ∧
    substrOf ("Invalid timezone: " ++ "Bad/Zone")
      (((currentTimestampHandler tsEnvW ⟨some "Bad/Zone", .unix⟩).content.headD
        ⟨"", ""⟩).text) = true :=
  (currentTimestampHandler_spec tsEnvW ⟨some "Bad/Zone", .unix⟩).2.1 "Bad/Zone" rfl
    (by decide) rfl

/-- C8 (counterexample): the empty string is not a valid IANA timezone
identifier, yet JavaScript truthiness makes `if (timezone)` skip the
validation entirely for `timezone = ""`, so the handler answers with a
normal, non-error result instead of the `isError` result the claim
demands for every invalid timezone string. -/
theorem currentTimestampHandler_claim_false :
    tsEnvW.isValidTimezone "" = false ∧
    (currentTimestampHandler tsEnvW ⟨some "", .unix⟩).isError = false :=
  ⟨rfl, rfl⟩

/-! ### Tools and the registry (C3, C9) -/

/-- Look a field up in an object value. -/
def lookupField (k : String) : Value → Option Value
  | .obj fields => fields.lookup k
  | _ => none

/-- Read a string field out of an object value, defaulting to "". -/
def getStrField (k : String) (v : Value) : String :=
  match lookupField k v with
  | some (.str s) => s
  | _ => ""

/-- A tool definition: name, description, input schema, and a handler from
the ambient environment and the (schema-validated) arguments to a result. -/
structure Tool where
  name : String
  description : String
  inputSchema : String
  handler : TsEnv → Value → ToolResult

/-- Parse of the current-timestamp tool's Zod input schema: an optional
string `timezone` and a `format` enum defaulting to `unix`. -/
def parseTimestampArgs (v : Value) : TsInput :=
  { timezone := match lookupField "timezone" v with
      | some (.str s) => some s
      | _ => none
    format := match lookupField "format" v with
      | some (.str "iso") => .iso
      | some (.str "human") => .human
      | _ => .unix }

/-- The canary project's tool, from `src/tools/current-timestamp.ts`. -/
def currentTimestampTool : Tool :=
  { name := "current-timestamp"
    description := "Get current timestamp with optional timezone and format specification"
    inputSchema := "timezone: optional string; format: enum of unix, iso, human with default unix"
    handler := fun env v => currentTimestampHandler env (parseTimestampArgs v) }

/-- Modelled from the spec: the `ToolRegistry` implementation lives in the
external framework package, not in this repository. This is a conforming
registry — named tools with register / lookup / list / merge /
invoke-by-name operations behaving as the contract catalog expects. -/
structure Registry where
  tools : List Tool

def Registry.empty : Registry := ⟨[]⟩

def Registry.add (r : Registry) (t : Tool) : Registry := ⟨r.tools ++ [t]⟩

def Registry.has (r : Registry) (n : String) : Bool :=
  r.tools.any fun t => t.name == n

def Registry.get (r : Registry) (n : String) : Option Tool :=
  r.tools.find? fun t => t.name == n

def Registry.list (r : Registry) : List Tool := r.tools

def Registry.merge (r other : Registry) : Registry := ⟨r.tools ++ other.tools⟩

def Registry.call (r : Registry) (env : TsEnv) (n : String) (args : Value) :
    Option ToolResult :=
  (r.get n).map fun t => t.handler env args

/-! ### The ToolRegistry catalog entry (C3)

The catalog entry below transcribes the `ToolRegistry class` describe block
of `test/interface-stability.test.ts` (lines 77-187): expected members
`add`, `get`, `has`, `list`, `merge`, `call`, and one behavior assertion
per `it` block. -/

/-- The tools constructed inside the registry tests. -/
def mkSimpleTool (name description : String) : Tool :=
  { name, description, inputSchema := "empty object"
    handler := fun _ _ => { content := [] } }

/-- The tool registered by the `add()` test (lines 85-90). -/
def addTestTool : Tool :=
  { name := "test", description := "Test", inputSchema := "input: string"
    handler := fun _ v => { content := [⟨"text", getStrField "input" v⟩] } }

/-- The tool registered by the `call()` test (lines 171-178). -/
def invokeTestTool : Tool :=
  { name := "invoke-test", description := "Invocation test", inputSchema := "message: string"
    handler := fun _ v => { content := [⟨"text", "Echo: " ++ getStrField "message" v⟩] } }

/-- Reflect a tool's data surface as a runtime value. -/
def toolToValue (t : Tool) : Value :=
  .obj [("name", .str t.name), ("description", .str t.description),
        ("inputSchema", .str t.inputSchema)]

/-- Reflect a tool result as a runtime value. -/
def toolResultToValue (r : ToolResult) : Value :=
  .obj [("content", .list (r.content.map fun c =>
           .obj [("type", .str c.type), ("text", .str c.text)])),
        ("isError", .bool r.isError)]

/-- An inert ambient environment for registry probing (the registry tests
never consult the clock or `Intl`). -/
def inertTsEnv : TsEnv :=
  { nowMs := 0, isoString := "", humanString := ""
    isValidTimezone := fun _ => true
    formatIsoTz := fun s => .ok s
    formatHumanTz := fun s => .ok s }

/-- Invoke the registry symbol on one test scenario, reproducing the
constructions of the corresponding `it` block against the registry model. -/
def registryInvoke (v : Value) : ActualOutcome :=
  match v with
  | .str "add-then-has" =>
    .returned (.bool ((Registry.empty.add addTestTool).has "test"))
  | .str "get-after-add" =>
    match (Registry.empty.add (mkSimpleTool "lookup-test" "Lookup test")).get "lookup-test" with
    | some tool => .returned (toolToValue tool)
    | none => .threw "retrieved tool is undefined"
  | .str "has-nonexistent" =>
    .returned (.bool (Registry.empty.has "nonexistent"))
  | .str "list-after-two-adds" =>
    .returned (.list
      (((Registry.empty.add (mkSimpleTool "tool1" "Tool 1")).add
          (mkSimpleTool "tool2" "Tool 2")).list.map toolToValue))
  | .str "merge-two-registries" =>
    match (Registry.empty.add (mkSimpleTool "tool1" "Tool 1")).merge
        (Registry.empty.add (mkSimpleTool "tool2" "Tool 2")) with
    | merged => .returned (.obj [("has-tool1", .bool (merged.has "tool1")),
                                 ("has-tool2", .bool (merged.has "tool2"))])
  | .str "call-invoke-test" =>
    match (Registry.empty.add invokeTestTool).call inertTsEnv "invoke-test"
        (.obj [("message", .str "hello")]) with
    | some r => .resolved (toolResultToValue r)
    | none => .rejected "tool not found"
  | _ => .threw "unknown scenario"

/-- Value predicate: is the value the boolean false? -/
def isFalseValue : Value → Bool
  | .bool false => true
  | _ => false

/-- Value predicate: an object whose name field is the given string. -/
def hasNameField (expected : String) (v : Value) : Bool :=
  match lookupField "name" v with
  | some (.str s) => s == expected
  | _ => false

/-- Value predicate of the `list()` test: an array of length 2 whose first
element has name, description and inputSchema properties. -/
def listTwoWithToolProps (v : Value) : Bool :=
  match v with
  | .list xs =>
    xs.length == 2 &&
      (match xs.head? with
       | some x => (lookupField "name" x).isSome && (lookupField "description" x).isSome &&
           (lookupField "inputSchema" x).isSome
       | none => false)
  | _ => false

/-- Value predicate of the `merge()` test: both merged tools present. -/
def mergeHasBoth (v : Value) : Bool :=
  (match lookupField "has-tool1" v with | some (.bool b) => b | _ => false) &&
  (match lookupField "has-tool2" v with | some (.bool b) => b | _ => false)

/-- Value predicate of the `call()` test: the settled result has a content
property holding an array. -/
def resultHasContentArray (v : Value) : Bool :=
  match lookupField "content" v with
  | some (.list _) => true
  | _ => false

/-- The resolved `ToolRegistry` symbol of the installed dependency. -/
def toolRegistrySymbol : DepSymbol :=
  { kind := .classKind
    members := ["add", "get", "has", "list", "merge", "call"]
    invoke := registryInvoke }

/-- The installed dependency surface seen by the registry catalog entry. -/
def registryDep : Dependency :=
  { version := "1.0.0"
    resolve := fun p => if p = "ToolRegistry" then some toolRegistrySymbol else none }

/-- The contract catalog entry for the registry class, transcribed from
the `ToolRegistry class` describe block. -/
def toolRegistryEntry : ContractEntry :=
  { symbolPath := "ToolRegistry"
    kind := .classKind
    members := ["add", "get", "has", "list", "merge", "call"]
    behaviorAssertions :=
      [⟨"add registers a tool", .str "add-then-has", .returnsMatching isTrueValue⟩,
       ⟨"get retrieves an added tool by name", .str "get-after-add",
         .returnsMatching (hasNameField "lookup-test")⟩,
       ⟨"has is false for a nonexistent tool", .str "has-nonexistent",
         .returnsMatching isFalseValue⟩,
       ⟨"list returns an array of the two added tools", .str "list-after-two-adds",
         .returnsMatching listTwoWithToolProps⟩,
       ⟨"merge imports the other registry's tools", .str "merge-two-registries",
         .returnsMatching mergeHasBoth⟩,
       ⟨"call resolves with a content array", .str "call-invoke-test",
         .resolvesWith resultHasContentArray⟩] }

/-- C3: against the conforming registry implementation, the probe for the
registry catalog entry (methods add, get, has, list, merge, call) yields
status pass with an empty failures list, at any run timestamp. -/
theorem toolRegistry_probe_passes (t : String) :
    probeEntry t registryDep toolRegistryEntry =
      { entryPath := "ToolRegistry", status := .pass, failures := [] } := rfl

/-! ### createCanaryTools (C9)

Embedded from `src/tools/index.ts`: `createCanaryTools` constructs a fresh
`ToolRegistry` and registers `currentTimestampTool` in it. Object identity
and freshness are made explicit with a store of registries: `new
ToolRegistry()` allocates at a fresh index, and mutation (`add`) updates
one index of the store. -/

/-- A heap of allocated registries, indexed by allocation order. -/
abbrev Store := List Registry

/-- `new ToolRegistry()`: allocate an empty registry at a fresh index. -/
def newToolRegistry (s : Store) : Nat × Store :=
  (s.length, s ++ [Registry.empty])

/-- Read a registry from the store. -/
def storeGet (s : Store) (id : Nat) : Option Registry :=
  s.get? id

/-- `registry.add(tool)`: mutate the registry at the given index. -/
def storeAdd (s : Store) (id : Nat) (t : Tool) : Store :=
  s.set id (((s.get? id).getD Registry.empty).add t)

/-- `createCanaryTools()` from `src/tools/index.ts` lines 10-14: construct
a fresh registry, register the current-timestamp tool, return it. -/
def createCanaryTools (s : Store) : Nat × Store :=
  let p := newToolRegistry s
  (p.1, storeAdd p.2 p.1 currentTimestampTool)

/-- The registry contents produced by `createCanaryTools`. -/
def canaryRegistry : Registry := ⟨[currentTimestampTool]⟩

theorem get?_concat {α : Type} (s : List α) (a : α) :
    (s ++ [a]).get? s.length = some a := by
  induction s with
  | nil => rfl
  | cons x xs ih => exact ih

theorem set_concat {α : Type} (s : List α) (a b : α) :
    (s ++ [a]).set s.length b = s ++ [b] := by
  induction s with
  | nil => rfl
  | cons x xs ih =>
    show x :: (xs ++ [a]).set xs.length b = x :: (xs ++ [b])
    rw [ih]

theorem get?_append_left {α : Type} (s t : List α) (i : Nat) (h : i < s.length) :
    (s ++ t).get? i = s.get? i := by
  induction s generalizing i with
  | nil => exact absurd h (by simp)
  | cons x xs ih =>
    cases i with
    | zero => rfl
    | succ i => exact ih i (Nat.lt_of_succ_lt_succ h)

theorem get?_set_ne {α : Type} (l : List α) (i j : Nat) (a : α) (h : i ≠ j) :
    (l.set i a).get? j = l.get? j := by
  induction l generalizing i j with
  | nil => rfl
  | cons x xs ih =>
    cases i with
    | zero =>
      cases j with
      | zero => exact absurd rfl h
      | succ j => rfl
    | succ i =>
      cases j with
      | zero => rfl
      | succ j => exact ih i j (fun he => h (by rw [he]))

theorem createCanaryTools_eq (s : Store) :
    createCanaryTools s = (s.length, s ++ [canaryRegistry]) := by
  show (s.length, (s ++ [Registry.empty]).set s.length
      ((((s ++ [Registry.empty]).get? s.length).getD Registry.empty).add
        currentTimestampTool)) = (s.length, s ++ [canaryRegistry])
  rw [get?_concat]
  show (s.length, (s ++ [Registry.empty]).set s.length canaryRegistry) = _
  rw [set_concat]

/-- C9: `createCanaryTools` returns a freshly allocated registry holding
exactly the one tool `currentTimestampTool`, whose name is
"current-timestamp"; a second call allocates a distinct registry and leaves
the first untouched, and adding a tool to either registry does not affect
the other. -/
theorem createCanaryTools_spec (s : Store) :
    storeGet (createCanaryTools s).2 (createCanaryTools s).1 = some canaryRegistry ∧
    canaryRegistry.list = [currentTimestampTool] ∧
    currentTimestampTool.name = "current-timestamp" ∧
    (createCanaryTools (createCanaryTools s).2).1 ≠ (createCanaryTools s).1 ∧
    storeGet (createCanaryTools (createCanaryTools s).2).2 (createCanaryTools s).1 =
      some canaryRegistry ∧
    (∀ tool,
      storeGet (storeAdd (createCanaryTools (createCanaryTools s).2).2
          (createCanaryTools (createCanaryTools s).2).1 tool)
        (createCanaryTools s).1 =
      storeGet (createCanaryTools (createCanaryTools s).2).2 (createCanaryTools s).1) ∧
    (∀ tool,
      storeGet (storeAdd (createCanaryTools (createCanaryTools s).2).2
          (createCanaryTools s).1 tool)
        (createCanaryTools (createCanaryTools s).2).1 =
      storeGet (createCanaryTools (createCanaryTools s).2).2
        (createCanaryTools (createCanaryTools s).2).1) := by
  have hfst : (createCanaryTools s).1 = s.length := by rw [createCanaryTools_eq s]
  have hsnd : (createCanaryTools s).2 = s ++ [canaryRegistry] := by rw [createCanaryTools_eq s]
  have hfst₂ : (createCanaryTools (s ++ [canaryRegistry])).1 = s.length + 1 := by
    rw [createCanaryTools_eq (s ++ [canaryRegistry])]
    simp
  have hsnd₂ : (createCanaryTools (s ++ [canaryRegistry])).2 =
      (s ++ [canaryRegistry]) ++ [canaryRegistry] := by
    rw [createCanaryTools_eq (s ++ [canaryRegistry])]
  rw [hsnd, hfst, hfst₂, hsnd₂]
  refine ⟨get?_concat s canaryRegistry, rfl, rfl, by omega, ?_, ?_, ?_⟩
  · rw [show storeGet ((s ++ [canaryRegistry]) ++ [canaryRegistry]) s.length =
        ((s ++ [canaryRegistry]) ++ [canaryRegistry]).get? s.length from rfl]
    rw [get?_append_left _ _ _ (by simp)]
    exact get?_concat s canaryRegistry
  · intro tool
    exact get?_set_ne _ _ _ _ (by omega)
  · intro tool
    exact get?_set_ne _ _ _ _ (by omega)

/-! ### getCurrentEnvironment (C10)

Embedded from `test/system/utils.ts` lines 25-80. The relevant
`process.env` variables are collected in `ProcEnv`; JavaScript `x || d`
truthiness (an empty string counts as unset) is preserved via `orDefault`,
and throwing is modelled with `Except.error`. -/

/-- A named test environment. -/
structure TestEnvironment where
  name : String
  baseUrl : String
  description : String
deriving DecidableEq

/-- The process environment variables consulted by `test/system/utils.ts`. -/
structure ProcEnv where
  TEST_ENV : Option String
  TEST_BASE_URL : Option String
  HTTP_TEST_PORT : Option String
  VERCEL_PREVIEW_URL : Option String
  VERCEL_PRODUCTION_URL : Option String

/-- JavaScript `x || d` on an optional environment variable: unset and the
empty string both fall back to the default. -/
def orDefault (o : Option String) (d : String) : String :=
  match o with
  | some s => if s = "" then d else s
  | none => d

/-- The `TEST_ENVIRONMENTS` record of `test/system/utils.ts` lines 25-61,
in declaration order. -/
def TEST_ENVIRONMENTS (p : ProcEnv) : List (String × TestEnvironment) :=
  [("express",
    ⟨"express", "http://localhost:3020", "Express HTTP server (npm run dev:http)"⟩),
   ("express:ci",
    ⟨"express:ci", "http://localhost:" ++ orDefault p.HTTP_TEST_PORT "3021",
     "Express HTTP server for CI testing (npm run dev:http:ci)"⟩),
   ("stdio",
    ⟨"stdio", "stdio://localhost", "STDIO transport mode (npm run dev:stdio)"⟩),
   ("vercel:local",
    ⟨"vercel:local", "http://localhost:3020", "Local Vercel dev server (npm run dev:vercel)"⟩),
   ("vercel:preview",
    ⟨"vercel:preview", orDefault p.VERCEL_PREVIEW_URL "https://canary-preview.vercel.app",
     "Vercel preview deployment"⟩),
   ("vercel:production",
    ⟨"vercel:production", orDefault p.VERCEL_PRODUCTION_URL "https://canary.vercel.app",
     "Vercel production deployment"⟩),
   ("docker",
    ⟨"docker", "http://localhost:3020", "Docker container (docker run with exposed port)"⟩)]

/-- `getCurrentEnvironment` of `test/system/utils.ts` lines 63-80: pick the
environment named by `TEST_ENV` (default "vercel:local"), throw for an
unknown name, and override `baseUrl` with a truthy `TEST_BASE_URL`. -/
def getCurrentEnvironment (p : ProcEnv) : Except String TestEnvironment :=
  let envName := orDefault p.TEST_ENV "vercel:local"
  match (TEST_ENVIRONMENTS p).lookup envName with
  | none =>
    .error ("Unknown test environment: " ++ envName ++ ". Available: " ++
      String.intercalate ", " ((TEST_ENVIRONMENTS p).map Prod.fst))
  | some environment =>
    match p.TEST_BASE_URL with
    | some u => if u = "" then .ok environment else .ok { environment with baseUrl := u }
    | none => .ok environment

/-- C10 (amended): for a non-empty `TEST_ENV` naming a defined test
environment, a non-empty `TEST_BASE_URL` replaces only the entry's
`baseUrl` (name and description unchanged); an unset or empty
`TEST_BASE_URL` leaves the entry unmodified; and a non-empty `TEST_ENV`
naming no defined environment makes the function throw. -/
theorem getCurrentEnvironment_spec (p : ProcEnv) (name : String)
    (hn : p.TEST_ENV = some name) (hne : name ≠ "") :
    (∀ entry, (TEST_ENVIRONMENTS p).lookup name = some entry →
      (∀ u, p.TEST_BASE_URL = some u → u ≠ "" →
        getCurrentEnvironment p = .ok ⟨entry.name, u, entry.description⟩) ∧
      (p.TEST_BASE_URL = none → getCurrentEnvironment p = .ok entry) ∧
      (p.TEST_BASE_URL = some "" → getCurrentEnvironment p = .ok entry)) ∧
    ((TEST_ENVIRONMENTS p).lookup name = none →
      ∃ msg, getCurrentEnvironment p = .error msg) := by
  have hname : orDefault p.TEST_ENV "vercel:local" = name := by
    rw [hn]
    simp [orDefault, hne]
  constructor
  · intro entry hentry
    refine ⟨?_, ?_, ?_⟩
    · intro u hu hune
      simp [getCurrentEnvironment, hname, hentry, hu, hune]
    · intro hu
      simp [getCurrentEnvironment, hname, hentry, hu]
    · intro hu
      simp [getCurrentEnvironment, hname, hentry, hu]
  · intro hnone
    refine ⟨"Unknown test environment: " ++ name ++ ". Available: " ++
      String.intercalate ", " ((TEST_ENVIRONMENTS p).map Prod.fst), ?_⟩
    simp [getCurrentEnvironment, hname, hnone]

/-- A concrete process environment selecting "express" and overriding the
base URL. -/
def procEnvW : ProcEnv :=
  { TEST_ENV := some "express"
    TEST_BASE_URL := some "http://localhost:9999"
    HTTP_TEST_PORT := none
    VERCEL_PREVIEW_URL := none
    VERCEL_PRODUCTION_URL := none }

theorem getCurrentEnvironment_spec_witness :
    getCurrentEnvironment procEnvW =
      .ok ⟨"express", "http://localhost:9999", "Express HTTP server (npm run dev:http)"⟩ :=
  (((getCurrentEnvironment_spec procEnvW "express" rfl (by decide)).1
      ⟨"express", "http://localhost:3020", "Express HTTP server (npm run dev:http)"⟩
      (by decide)).1 "http://localhost:9999" rfl (by decide))

/-- A process environment whose `TEST_ENV` is set to the empty string — a
value that names no defined test environment. -/
def procEnvEmpty : ProcEnv :=
  { TEST_ENV := some ""
    TEST_BASE_URL := none
    HTTP_TEST_PORT := none
    VERCEL_PREVIEW_URL := none
    VERCEL_PRODUCTION_URL := none }

/-- C10 (counterexample): `TEST_ENV = ""` names no defined environment
(the lookup fails), yet the function does not throw — JavaScript `||`
falls back to "vercel:local" for the empty string and that entry is
returned, contradicting "for an undefined TEST_ENV name the function
throws". -/
theorem getCurrentEnvironment_claim_false :
    (TEST_ENVIRONMENTS procEnvEmpty).lookup "" = none ∧
    getCurrentEnvironment procEnvEmpty =
      .ok ⟨"vercel:local", "http://localhost:3020",
        "Local Vercel dev server (npm run dev:vercel)"⟩ := by
  constructor <;> rfl
